import Mathlib

/-!
Verification of the query-construction and availability-computation layer of
the cinema booking backend (`cinema/views.py`).

The views are embedded shallowly: a database is a record of lists, each view's
`get_queryset` becomes a function from the database and the request's query
parameters to either an error value or the resulting record list.  Python
exceptions (`ValidationError`) become `Except String`, the directly returned
HTTP error responses become `Except ErrorResponse`.
-/

namespace Cinema

/-- Data model (`cinema/models.py` is not under src).  Modelled from the spec:
a cinema hall has a name, a row count and a seats-per-row count. -/
structure CinemaHall where
  id : Int
  rows : Nat
  seats_in_row : Nat
deriving DecidableEq, Repr

/-- Modelled from the spec: a movie has a title and many-to-many sets of
genres and actors, represented here by the lists of related ids. -/
structure Movie where
  id : Int
  title : String
  genres : List Int
  actors : List Int
deriving DecidableEq, Repr

/-- A calendar date, the `date()` part of a session's `show_time`. -/
structure Date where
  year : Nat
  month : Nat
  day : Nat
deriving DecidableEq, Repr

/-- Modelled from the spec: a movie session references one movie and one
cinema hall and has a show date-time; only the date part is ever filtered
on (`show_time__date`), so only it is modelled. -/
structure MovieSession where
  id : Int
  movie_id : Int
  cinema_hall : CinemaHall
  show_time_date : Date
deriving DecidableEq, Repr

/-- Modelled from the spec: a ticket references exactly one movie session and
belongs to exactly one order. -/
structure Ticket where
  id : Int
  movie_session_id : Int
  order_id : Int
deriving DecidableEq, Repr

/-- Modelled from the spec: an order belongs to exactly one user. -/
structure Order where
  id : Int
  user : Int
deriving DecidableEq, Repr

/-- The entity store: the relational tables the views query. -/
structure Database where
  movies : List Movie
  sessions : List MovieSession
  tickets : List Ticket
  orders : List Order
deriving DecidableEq, Repr

/-- An HTTP error response as built by
`Response({"error": ...}, status=...)` in `MovieSessionViewSet.get_queryset`. -/
structure ErrorResponse where
  status : Nat
  error : String
deriving DecidableEq, Repr

/-! ### Query-parameter primitives -/

/-- `self.request.query_params.get(name)` followed by the truthiness guard
`if value:` — a missing parameter and an empty-string parameter are both
treated as absent (Python's empty string is falsy). -/
def truthyGet (p : Option String) : Option String :=
  match p with
  | none => none
  | some s => if s.isEmpty then none else some s

/-- Digits-to-number accumulator used by the integer and date parsers. -/
def digitsToNat (l : List Char) : Nat :=
  l.foldl (fun a c => a * 10 + (c.toNat - 48)) 0

/-- Strip leading and trailing whitespace (Python's `int` ignores it). -/
def trimChars (cs : List Char) : List Char :=
  ((cs.dropWhile Char.isWhitespace).reverse.dropWhile Char.isWhitespace).reverse

/-- Python's `int(str)` on the character list of the string: optional sign
followed by a non-empty digit run, surrounding whitespace ignored; any other
input raises `ValueError`, modelled as `none`. -/
def pyParseIntChars (cs0 : List Char) : Option Int :=
  match trimChars cs0 with
  | [] => none
  | '-' :: rest =>
    if rest.isEmpty then none
    else if rest.all Char.isDigit then some (-(digitsToNat rest : Int)) else none
  | '+' :: rest =>
    if rest.isEmpty then none
    else if rest.all Char.isDigit then some (digitsToNat rest : Int) else none
  | cs =>
    if cs.all Char.isDigit then some (digitsToNat cs : Int) else none

/-- Python's `int(str)`. -/
def pyParseInt (s : String) : Option Int :=
  pyParseIntChars s.toList

/-- Split a character list on a separator character (`str.split(sep)`):
`splitOnChar ',' "a,,b"` gives `["a", "", "b"]`. -/
def splitOnChar (sep : Char) : List Char → List (List Char)
  | [] => [[]]
  | c :: cs =>
    let r := splitOnChar sep cs
    if c = sep then [] :: r
    else
      match r with
      | [] => [[c]]
      | h :: t => (c :: h) :: t

/-- `[int(str_id) for str_id in query_string.split(",")]`: every token must
parse as an integer, the first failure aborts the whole comprehension. -/
def parseIds : List (List Char) → Option (List Int)
  | [] => some []
  | tok :: rest =>
    match pyParseIntChars tok, parseIds rest with
    | some i, some is => some (i :: is)
    | _, _ => none

/-- The comma-separated id-list parser of `MovieViewSet._filter_by_params`. -/
def parseIntList (s : String) : Option (List Int) :=
  parseIds (splitOnChar ',' s.toList)

/-! ### Date parsing (`datetime.strptime(date, "%Y-%m-%d").date()`) -/

/-- Gregorian leap-year rule, as used by `datetime.date`. -/
def isLeapYear (y : Nat) : Bool :=
  (y % 4 = 0 && y % 100 ≠ 0) || y % 400 = 0

/-- Number of days in a month, as validated by `datetime.date`. -/
def daysInMonth (y m : Nat) : Nat :=
  if m = 2 then (if isLeapYear y then 29 else 28)
  else if m = 4 ∨ m = 6 ∨ m = 9 ∨ m = 11 then 30
  else 31

/-- `datetime.strptime(s, "%Y-%m-%d")`: exactly three dash-separated fields,
a four-digit year (`%Y`), a one- or two-digit month in 1..12 (`%m`) and a
one- or two-digit day (`%d`) that must be a valid day of that month; any
violation raises `ValueError`, modelled as `none`. -/
def parseDate (s : String) : Option Date :=
  match splitOnChar '-' s.toList with
  | [ys, ms, ds] =>
    if ys.length = 4 ∧ ys.all Char.isDigit
        ∧ 1 ≤ ms.length ∧ ms.length ≤ 2 ∧ ms.all Char.isDigit
        ∧ 1 ≤ ds.length ∧ ds.length ≤ 2 ∧ ds.all Char.isDigit then
      let y := digitsToNat ys
      let m := digitsToNat ms
      let d := digitsToNat ds
      if 1 ≤ y ∧ 1 ≤ m ∧ m ≤ 12 ∧ 1 ≤ d ∧ d ≤ daysInMonth y m then
        some ⟨y, m, d⟩
      else none
    else none
  | _ => none

/-! ### MovieViewSet -/

/-- Case-insensitive `needle` at the front of `hay`. -/
def startsWith : List Char → List Char → Bool
  | _, [] => true
  | [], _ :: _ => false
  | h :: hs, n :: ns => h = n && startsWith hs ns

/-- Substring containment on character lists. -/
def containsSub (needle : List Char) : List Char → Bool
  | [] => needle.isEmpty
  | c :: hs => startsWith (c :: hs) needle || containsSub needle hs

/-- Django's `title__icontains=t`: case-insensitive substring match. -/
def icontains (hay sub : String) : Bool :=
  containsSub sub.toLower.toList hay.toLower.toList

/-- `MovieViewSet._filter_by_params(query_string, param_name, queryset)`:
parse the comma-separated id list and keep the movies related — through the
relation named by `param_name`, abstracted here as the projection `param` —
to at least one of the ids (`{param_name}__id__in=id_list`); a bad token
raises `ValidationError(f"Invalid query string: {query_string}. IDs must be
integers.")`. -/
def filter_by_params (query_string : String) (param : Movie → List Int)
    (queryset : List Movie) : Except String (List Movie) :=
  match parseIntList query_string with
  | none =>
    .error ("Invalid query string: " ++ query_string ++ ". IDs must be integers.")
  | some id_list =>
    .ok (queryset.filter (fun m => (param m).any (fun x => decide (x ∈ id_list))))

/-- One `if <param>: self.queryset = self._filter_by_params(<param>, name, qs)`
step of `MovieViewSet.get_queryset`: when the parameter is truthy, run
`_filter_by_params` under the relation projection `proj`, otherwise leave the
queryset unchanged. -/
def applyIdFilter (param : Option String) (proj : Movie → List Int)
    (qs : List Movie) : Except String (List Movie) :=
  match truthyGet param with
  | some g => filter_by_params g proj qs
  | none => .ok qs

/-- The `if title: self.queryset = self.queryset.filter(title__icontains=title)`
step of `MovieViewSet.get_queryset`. -/
def applyTitleFilter (title : Option String) (qs : List Movie) : List Movie :=
  match truthyGet title with
  | some t => qs.filter (fun m => icontains m.title t)
  | none => qs

/-- `MovieViewSet.get_queryset`: apply the genres filter, then the actors
filter, then the title filter, each only when its parameter is truthy; any
exception raised inside is caught and re-raised as
`ValidationError(f"Failed to filter queryset: {str(e)}")`
(`str(e)` is modelled as the inner message). -/
def movieGetQueryset (db : Database) (genres actors title : Option String) :
    Except String (List Movie) :=
  match applyIdFilter genres Movie.genres db.movies with
  | .error e => .error ("Failed to filter queryset: " ++ e)
  | .ok qs1 =>
    match applyIdFilter actors Movie.actors qs1 with
    | .error e => .error ("Failed to filter queryset: " ++ e)
    | .ok qs2 => .ok (applyTitleFilter title qs2)

/-! ### MovieSessionViewSet -/

/-- `Count("tickets")` for one session: the number of tickets referencing it. -/
def ticket_count (db : Database) (sid : Int) : Nat :=
  (db.tickets.filter (fun tk => tk.movie_session_id = sid)).length

/-- The annotation
`tickets_available=F("cinema_hall__rows") * F("cinema_hall__seats_in_row") - Count("tickets")`. -/
def tickets_available (db : Database) (s : MovieSession) : Int :=
  ((s.cinema_hall.rows * s.cinema_hall.seats_in_row : Nat) : Int)
    - (ticket_count db s.id : Int)

/-- The annotated base queryset of `MovieSessionViewSet.get_queryset`:
every session paired with its derived `tickets_available`. -/
def annotateSessions (db : Database) : List (MovieSession × Int) :=
  db.sessions.map (fun s => (s, tickets_available db s))

/-- The `movie` parameter step of `MovieSessionViewSet.get_queryset`:
when truthy, `int(movie)` with a 400 response on `ValueError`, then
`filter(movie__id=movie)`. -/
def filterByMovieParam (qs : List (MovieSession × Int)) (movie : Option String) :
    Except ErrorResponse (List (MovieSession × Int)) :=
  match truthyGet movie with
  | none => .ok qs
  | some mstr =>
    match pyParseInt mstr with
    | none => .error ⟨400, "Invalid movie ID. Please provide an integer."⟩
    | some mid => .ok (qs.filter (fun p => p.1.movie_id = mid))

/-- `MovieSessionViewSet.get_queryset`: annotate every session with
`tickets_available`, then, when the `date` parameter is truthy, parse it as
`YYYY-MM-DD` — on failure return a 400 response with
"Invalid date format. Please use YYYY-MM-DD." — and filter on
`show_time__date`; then handle the `movie` parameter the same way. -/
def movieSessionGetQueryset (db : Database) (date movie : Option String) :
    Except ErrorResponse (List (MovieSession × Int)) :=
  let qs := annotateSessions db
  match truthyGet date with
  | some dstr =>
    match parseDate dstr with
    | none => .error ⟨400, "Invalid date format. Please use YYYY-MM-DD."⟩
    | some d => filterByMovieParam (qs.filter (fun p => p.1.show_time_date = d)) movie
  | none => filterByMovieParam qs movie

/-! ### OrderViewSet -/

/-- `OrderViewSet.get_queryset`: `self.queryset.filter(user=self.request.user)`
(the `prefetch_related` calls only affect fetching strategy, not the result
set). -/
def orderGetQueryset (user : Int) (db : Database) : List Order :=
  db.orders.filter (fun o => o.user = user)

/-- Modelled from the spec: the framework's `get_object` used by retrieve,
update and delete resolves the url's pk inside the view's `get_queryset`
result, yielding not-found when no such row is visible. -/
def orderGetObject (user : Int) (db : Database) (pk : Int) : Option Order :=
  (orderGetQueryset user db).find? (fun o => o.id = pk)

/-- `OrderViewSetPagination.page_size`. -/
def pagination_page_size : Nat := 2

/-- `OrderViewSetPagination.max_page_size`. -/
def pagination_max_page_size : Nat := 10

/-- Modelled from the spec: the pagination framework class consuming the
`OrderViewSetPagination` attributes is not under src; per the spec the page
size defaults to `page_size` when the `page_size` query parameter is absent
and a requested value is capped at `max_page_size`. -/
def get_page_size (requested : Option Nat) : Nat :=
  match requested with
  | none => pagination_page_size
  | some v => min v pagination_max_page_size

/-- Modelled from the spec: `cinema/serializers.py` is not under src; a
serializer's save merges the client-supplied validated fields with the
keyword overrides passed by the view, the overrides winning. -/
def mergedUserField (validated : Option Int) (kwargs : Option Int) : Option Int :=
  match kwargs with
  | some v => some v
  | none => validated

/-- `OrderViewSet.perform_create`: `serializer.save(user=self.request.user)` —
the owner stored on the created order, given any client-supplied user field. -/
def performCreateUser (requestUser : Int) (clientUser : Option Int) : Option Int :=
  mergedUserField clientUser (some requestUser)

/-! ### Concrete fixtures used by the witnesses -/

/-- A 5-row × 10-seats hall. -/
def hallA : CinemaHall := ⟨1, 5, 10⟩

/-- One session in `hallA`. -/
def sessionA : MovieSession := ⟨1, 1, hallA, ⟨2024, 6, 15⟩⟩

/-- A database with one session and three tickets booked on it. -/
def dbSessions : Database := ⟨[], [sessionA], [⟨1, 1, 1⟩, ⟨2, 1, 1⟩, ⟨3, 1, 1⟩], []⟩

/-- Movie A with genre set {1}. -/
def movieA : Movie := ⟨1, "A", [1], []⟩

/-- Movie B with genre set {3}. -/
def movieB : Movie := ⟨2, "B", [3], []⟩

/-- Movie C with genre set {2}. -/
def movieC : Movie := ⟨3, "C", [2], []⟩

/-- A database with the three movies of the end-to-end genre example. -/
def dbMovies : Database := ⟨[movieA, movieB, movieC], [], [], []⟩

/-- A database with one order of user 5 and one of user 9. -/
def dbOrders : Database := ⟨[], [], [], [⟨1, 5⟩, ⟨2, 9⟩]⟩

/-- A database holding only user 5's order. -/
def dbOrdersOwn : Database := ⟨[], [], [], [⟨1, 5⟩]⟩

/-! ### Helper lemmas -/

theorem stringAppendAssoc (a b c : String) : a ++ b ++ c = a ++ (b ++ c) := by
  apply String.ext
  simp [String.data_append]

theorem mem_annotateSessions {db : Database} {s : MovieSession} {ta : Int}
    (h : (s, ta) ∈ annotateSessions db) :
    s ∈ db.sessions ∧ ta = tickets_available db s := by
  simp only [annotateSessions, List.mem_map] at h
  obtain ⟨s0, hs0, heq⟩ := h
  injection heq with e1 e2
  subst e1; subst e2
  exact ⟨hs0, rfl⟩

theorem filterByMovieParam_ok_sub {qs l : List (MovieSession × Int)}
    {mp : Option String} (h : filterByMovieParam qs mp = .ok l) :
    ∀ p ∈ l, p ∈ qs := by
  unfold filterByMovieParam at h
  split at h
  · cases h; exact fun p hp => hp
  · split at h
    · cases h
    · cases h; exact fun p hp => List.mem_of_mem_filter hp

theorem sessionQueryset_ok_sub {db : Database} {dp mp : Option String}
    {l : List (MovieSession × Int)} (h : movieSessionGetQueryset db dp mp = .ok l) :
    ∀ p ∈ l, p ∈ annotateSessions db := by
  unfold movieSessionGetQueryset at h
  split at h
  · split at h
    · cases h
    · intro p hp
      exact List.mem_of_mem_filter (filterByMovieParam_ok_sub h p hp)
  · intro p hp
    exact filterByMovieParam_ok_sub h p hp

theorem truthyGet_of_ne_empty {s : String} (h : s.isEmpty = false) :
    truthyGet (some s) = some s := by
  simp [truthyGet, h]

theorem filter_by_params_err (s : String) (proj : Movie → List Int)
    (qs : List Movie) (h : parseIntList s = none) :
    filter_by_params s proj qs
      = .error ("Invalid query string: " ++ s ++ ". IDs must be integers.") := by
  unfold filter_by_params
  rw [h]

theorem filter_by_params_ok (s : String) {ids : List Int}
    (proj : Movie → List Int) (qs : List Movie) (h : parseIntList s = some ids) :
    filter_by_params s proj qs
      = .ok (qs.filter (fun m => (proj m).any (fun x => decide (x ∈ ids)))) := by
  unfold filter_by_params
  rw [h]

theorem applyIdFilter_absent {p : Option String} (proj : Movie → List Int)
    (qs : List Movie) (h : truthyGet p = none) :
    applyIdFilter p proj qs = .ok qs := by
  unfold applyIdFilter
  rw [h]

theorem applyIdFilter_present {p : Option String} {s : String}
    (proj : Movie → List Int) (qs : List Movie) (h : truthyGet p = some s) :
    applyIdFilter p proj qs = filter_by_params s proj qs := by
  unfold applyIdFilter
  rw [h]

theorem movieGetQueryset_eq (db : Database) (g a t : Option String)
    {l1 l2 : List Movie}
    (h1 : applyIdFilter g Movie.genres db.movies = .ok l1)
    (h2 : applyIdFilter a Movie.actors l1 = .ok l2) :
    movieGetQueryset db g a t = .ok (applyTitleFilter t l2) := by
  simp only [movieGetQueryset, h1, h2]

theorem movieGetQueryset_err1 (db : Database) (g a t : Option String)
    {e : String} (h1 : applyIdFilter g Movie.genres db.movies = .error e) :
    movieGetQueryset db g a t = .error ("Failed to filter queryset: " ++ e) := by
  simp only [movieGetQueryset, h1]

theorem movieGetQueryset_err2 (db : Database) (g a t : Option String)
    {l1 : List Movie} {e : String}
    (h1 : applyIdFilter g Movie.genres db.movies = .ok l1)
    (h2 : applyIdFilter a Movie.actors l1 = .error e) :
    movieGetQueryset db g a t = .error ("Failed to filter queryset: " ++ e) := by
  simp only [movieGetQueryset, h1, h2]

theorem applyIdFilter_ok_exists {p : Option String} (proj : Movie → List Int)
    (qs : List Movie)
    (hp : ∀ s, truthyGet p = some s → ∃ ids, parseIntList s = some ids) :
    ∃ l, applyIdFilter p proj qs = .ok l := by
  cases htp : truthyGet p with
  | none => exact ⟨qs, applyIdFilter_absent proj qs htp⟩
  | some s =>
    obtain ⟨ids, hids⟩ := hp s htp
    exact ⟨_, (applyIdFilter_present proj qs htp).trans
      (filter_by_params_ok s proj qs hids)⟩

theorem mem_applyIdFilter_ok {p : Option String} {proj : Movie → List Int}
    {qs l : List Movie} (h : applyIdFilter p proj qs = .ok l) (m : Movie) :
    m ∈ l ↔ m ∈ qs ∧
      (∀ s ids, truthyGet p = some s → parseIntList s = some ids →
        ∃ x, x ∈ proj m ∧ x ∈ ids) := by
  cases htp : truthyGet p with
  | none =>
    rw [applyIdFilter_absent proj qs htp] at h
    cases h
    simp [htp]
  | some s =>
    rw [applyIdFilter_present proj qs htp] at h
    cases hps : parseIntList s with
    | none =>
      rw [filter_by_params_err s proj qs hps] at h
      cases h
    | some ids =>
      rw [filter_by_params_ok s proj qs hps] at h
      cases h
      simp only [List.mem_filter, List.any_eq_true, decide_eq_true_eq, htp, hps,
        Option.some.injEq]
      constructor
      · rintro ⟨hm, x, hx1, hx2⟩
        refine ⟨hm, fun s2 ids2 hs2 hids2 => ?_⟩
        subst hs2
        rw [hps] at hids2
        injection hids2 with hids2
        subst hids2
        exact ⟨x, hx1, hx2⟩
      · rintro ⟨hm, hcond⟩
        obtain ⟨x, hx1, hx2⟩ := hcond s ids rfl hps
        exact ⟨hm, x, hx1, hx2⟩

theorem mem_applyTitleFilter {t : Option String} {qs : List Movie} (m : Movie) :
    m ∈ applyTitleFilter t qs ↔ m ∈ qs ∧
      (∀ s, truthyGet t = some s → icontains m.title s = true) := by
  unfold applyTitleFilter
  cases htt : truthyGet t with
  | none => simp [htt]
  | some s => simp [htt, List.mem_filter]

/-! ### The claims -/

/-- Claim C4: a movie-session list request whose truthy `date` parameter does
not parse as `YYYY-MM-DD` yields the 400 response with the literal message
"Invalid date format. Please use YYYY-MM-DD." and no session results. -/
theorem invalid_date_yields_400 (db : Database) (dstr : String) (mp : Option String)
    (h1 : dstr.isEmpty = false) (h2 : parseDate dstr = none) :
    movieSessionGetQueryset db (some dstr) mp =
      .error ⟨400, "Invalid date format. Please use YYYY-MM-DD."⟩ := by
  unfold movieSessionGetQueryset truthyGet
  simp [h1, h2]

/-- Witness for C4 at the spec's end-to-end input `date=2024-13-40`. -/
theorem invalid_date_yields_400_witness :
    ("2024-13-40" : String).isEmpty = false
    ∧ parseDate "2024-13-40" = none
    ∧ movieSessionGetQueryset ⟨[], [], [], []⟩ (some "2024-13-40") none =
        .error ⟨400, "Invalid date format. Please use YYYY-MM-DD."⟩ :=
  ⟨rfl, rfl, invalid_date_yields_400 ⟨[], [], [], []⟩ "2024-13-40" none rfl rfl⟩

/-- Claim C6: the applied page size is 2 when no `page_size` parameter is
supplied, the requested value when it is at most 10, and 10 for every
requested value above 10. -/
theorem order_page_size_policy (v w : Nat) (hv : v ≤ 10) (hw : 10 < w) :
    get_page_size none = 2
    ∧ get_page_size (some v) = v
    ∧ get_page_size (some w) = 10 := by
  refine ⟨rfl, ?_, ?_⟩ <;>
    simp [get_page_size, pagination_max_page_size] <;> omega

/-- Witness for C6 at requested sizes 7 and 23. -/
theorem order_page_size_policy_witness :
    7 ≤ 10 ∧ 10 < 23
    ∧ (get_page_size none = 2
        ∧ get_page_size (some 7) = 7
        ∧ get_page_size (some 23) = 10) :=
  ⟨by decide, by decide, order_page_size_policy 7 23 (by decide) (by decide)⟩

/-- Claim C7: the created order's owner is always the authenticated request
user; a client-supplied user field can never set a different owner. -/
theorem order_owner_from_request (requestUser : Int) (clientUser : Option Int) :
    performCreateUser requestUser clientUser = some requestUser := rfl

/-- Claim C8: with no filter parameter supplied, both the movie and the
movie-session list requests return the unchanged base set (filtering is the
identity); the annotated session rows project back to exactly the stored
sessions. -/
theorem no_filters_identity (db : Database) :
    movieGetQueryset db none none none = .ok db.movies
    ∧ movieSessionGetQueryset db none none = .ok (annotateSessions db)
    ∧ (annotateSessions db).map Prod.fst = db.sessions := by
  refine ⟨rfl, rfl, ?_⟩
  simp [annotateSessions, Function.comp_def]

/-- Claim C9: a filter parameter supplied as the empty string is treated as
absent by the truthiness guard: every listing behaves exactly as if the
parameter were missing, with no validation error. -/
theorem empty_params_ignored (db : Database) (p q : Option String) :
    movieGetQueryset db (some "") p q = movieGetQueryset db none p q
    ∧ movieGetQueryset db p (some "") q = movieGetQueryset db p none q
    ∧ movieGetQueryset db p q (some "") = movieGetQueryset db p q none
    ∧ movieSessionGetQueryset db (some "") p = movieSessionGetQueryset db none p
    ∧ movieSessionGetQueryset db p (some "") = movieSessionGetQueryset db p none :=
  ⟨rfl, rfl, rfl, rfl, rfl⟩

/-- Claim C1: every session row of a movie-session listing carries
`tickets_available = hall.rows × hall.seats_in_row − ticket_count(session)`;
it equals the hall capacity when the session has zero tickets, and booking
one more ticket on the session decreases it by exactly one. -/
theorem tickets_available_formula (db : Database) (dp mp : Option String)
    (l : List (MovieSession × Int)) (s : MovieSession) (ta : Int) (tk : Ticket)
    (hok : movieSessionGetQueryset db dp mp = .ok l)
    (hmem : (s, ta) ∈ l)
    (htk : tk.movie_session_id = s.id) :
    ta = ((s.cinema_hall.rows * s.cinema_hall.seats_in_row : Nat) : Int)
          - (ticket_count db s.id : Int)
    ∧ (ticket_count db s.id = 0 →
        ta = ((s.cinema_hall.rows * s.cinema_hall.seats_in_row : Nat) : Int))
    ∧ tickets_available { db with tickets := tk :: db.tickets } s
        = tickets_available db s - 1 := by
  have hann := sessionQueryset_ok_sub hok (s, ta) hmem
  have hta := (mem_annotateSessions hann).2
  have hcount : ticket_count { db with tickets := tk :: db.tickets } s.id
      = ticket_count db s.id + 1 := by
    simp [ticket_count, List.filter_cons, htk]
  refine ⟨hta, ?_, ?_⟩
  · intro h0
    rw [hta]
    simp [tickets_available, h0]
  · simp only [tickets_available, hcount]
    push_cast
    ring

/-- Witness for C1 at the spec's end-to-end input: a 5×10 hall with 3 booked
tickets yields `tickets_available = 47`, and a fourth ticket brings it to 46. -/
theorem tickets_available_formula_witness :
    movieSessionGetQueryset dbSessions none none = .ok [(sessionA, 47)]
    ∧ (sessionA, (47 : Int)) ∈ [(sessionA, (47 : Int))]
    ∧ (⟨4, 1, 1⟩ : Ticket).movie_session_id = sessionA.id
    ∧ ((47 : Int) =
          ((sessionA.cinema_hall.rows * sessionA.cinema_hall.seats_in_row : Nat) : Int)
            - (ticket_count dbSessions sessionA.id : Int)
      ∧ (ticket_count dbSessions sessionA.id = 0 →
          (47 : Int) =
            ((sessionA.cinema_hall.rows * sessionA.cinema_hall.seats_in_row : Nat) : Int))
      ∧ tickets_available
            { dbSessions with tickets := (⟨4, 1, 1⟩ : Ticket) :: dbSessions.tickets }
            sessionA
          = tickets_available dbSessions sessionA - 1) :=
  ⟨rfl, by simp, rfl,
    tickets_available_formula dbSessions none none [(sessionA, 47)] sessionA 47
      ⟨4, 1, 1⟩ rfl (by simp) rfl⟩

/-- Claim C3: an order listing contains only the requesting user's orders, and
the result is unchanged by adding any other user's order and depends only on
the requesting user's own rows (so changing other users' orders cannot affect
it). -/
theorem order_list_user_scoped (u : Int) (db db2 : Database) (o : Order)
    (ho : o.user ≠ u)
    (hagree : db.orders.filter (fun x => x.user = u)
      = db2.orders.filter (fun x => x.user = u)) :
    (∀ x ∈ orderGetQueryset u db, x.user = u)
    ∧ orderGetQueryset u { db with orders := o :: db.orders } = orderGetQueryset u db
    ∧ orderGetQueryset u db = orderGetQueryset u db2 := by
  refine ⟨?_, ?_, ?_⟩
  · intro x hx
    exact of_decide_eq_true (List.mem_filter.mp hx).2
  · simp [orderGetQueryset, List.filter_cons, ho]
  · simpa [orderGetQueryset] using hagree

/-- Witness for C3: user 5 sees only their order, regardless of user 9's. -/
theorem order_list_user_scoped_witness :
    ((⟨2, 9⟩ : Order).user ≠ 5)
    ∧ dbOrders.orders.filter (fun x => x.user = 5)
        = dbOrdersOwn.orders.filter (fun x => x.user = 5)
    ∧ ((∀ x ∈ orderGetQueryset 5 dbOrders, x.user = 5)
      ∧ orderGetQueryset 5 { dbOrders with orders := (⟨2, 9⟩ : Order) :: dbOrders.orders }
          = orderGetQueryset 5 dbOrders
      ∧ orderGetQueryset 5 dbOrders = orderGetQueryset 5 dbOrdersOwn) :=
  ⟨by decide, by decide,
    order_list_user_scoped 5 dbOrders dbOrdersOwn ⟨2, 9⟩ (by decide) (by decide)⟩

/-- Claim C10: retrieve/update/delete resolve their target inside the
user-scoped queryset, so a pk owned by nobody visible to the requesting user
resolves to not-found, and any resolved order is owned by the requester. -/
theorem order_object_fail_closed (u : Int) (db : Database) (pk : Int)
    (h : ∀ o ∈ db.orders, o.id = pk → o.user ≠ u) :
    orderGetObject u db pk = none
    ∧ ∀ (db2 : Database) (o : Order), orderGetObject u db2 pk = some o → o.user = u := by
  constructor
  · apply List.find?_eq_none.mpr
    intro x hx
    have hxu : x.user = u := of_decide_eq_true (List.mem_filter.mp hx).2
    have hxo : x ∈ db.orders := List.mem_of_mem_filter hx
    simp only [decide_eq_true_eq]
    intro hid
    exact h x hxo hid hxu
  · intro db2 o hfind
    have hmem : o ∈ orderGetQueryset u db2 := List.mem_of_find?_eq_some hfind
    exact of_decide_eq_true (List.mem_filter.mp hmem).2

/-- Witness for C10: user 1 addressing user 2's order 10 gets not-found. -/
theorem order_object_fail_closed_witness :
    (∀ o ∈ (⟨[], [], [], [⟨10, 2⟩]⟩ : Database).orders, o.id = 10 → o.user ≠ 1)
    ∧ (orderGetObject 1 ⟨[], [], [], [⟨10, 2⟩]⟩ 10 = none
      ∧ ∀ (db2 : Database) (o : Order),
          orderGetObject 1 db2 10 = some o → o.user = 1) :=
  ⟨by decide, order_object_fail_closed 1 ⟨[], [], [], [⟨10, 2⟩]⟩ 10 (by decide)⟩

/-- Claim C2: with well-formed id-list parameters, a movie is returned iff it
is stored and satisfies every supplied filter dimension conjunctively, where
an id-list dimension is satisfied exactly when the movie's genre (or actor)
id set has non-empty intersection with the requested id set. -/
theorem movie_filter_conjunctive_intersection (db : Database)
    (g a t : Option String)
    (hg : ∀ s, truthyGet g = some s → ∃ ids, parseIntList s = some ids)
    (ha : ∀ s, truthyGet a = some s → ∃ ids, parseIntList s = some ids) :
    ∃ l, movieGetQueryset db g a t = .ok l ∧
      ∀ m : Movie, m ∈ l ↔
        m ∈ db.movies
        ∧ (∀ s ids, truthyGet g = some s → parseIntList s = some ids →
            ∃ x, x ∈ m.genres ∧ x ∈ ids)
        ∧ (∀ s ids, truthyGet a = some s → parseIntList s = some ids →
            ∃ x, x ∈ m.actors ∧ x ∈ ids)
        ∧ (∀ s, truthyGet t = some s → icontains m.title s = true) := by
  obtain ⟨l1, h1⟩ := applyIdFilter_ok_exists Movie.genres db.movies hg
  obtain ⟨l2, h2⟩ := applyIdFilter_ok_exists Movie.actors l1 ha
  refine ⟨applyTitleFilter t l2, movieGetQueryset_eq db g a t h1 h2, ?_⟩
  intro m
  rw [mem_applyTitleFilter, mem_applyIdFilter_ok h2, mem_applyIdFilter_ok h1]
  tauto

/-- Witness for C2 at the spec's end-to-end input: `genres=1,2` over movies
{A: {1}, B: {3}, C: {2}} returns exactly {A, C}. -/
theorem movie_filter_conjunctive_intersection_witness :
    (∀ s, truthyGet (some "1,2") = some s → ∃ ids, parseIntList s = some ids)
    ∧ (∀ s, truthyGet (none : Option String) = some s →
        ∃ ids, parseIntList s = some ids)
    ∧ movieGetQueryset dbMovies (some "1,2") none none = .ok [movieA, movieC]
    ∧ (∃ l, movieGetQueryset dbMovies (some "1,2") none none = .ok l ∧
        ∀ m : Movie, m ∈ l ↔
          m ∈ dbMovies.movies
          ∧ (∀ s ids, truthyGet (some "1,2") = some s → parseIntList s = some ids →
              ∃ x, x ∈ m.genres ∧ x ∈ ids)
          ∧ (∀ s ids, truthyGet (none : Option String) = some s →
              parseIntList s = some ids → ∃ x, x ∈ m.actors ∧ x ∈ ids)
          ∧ (∀ s, truthyGet (none : Option String) = some s →
              icontains m.title s = true)) := by
  have hg : ∀ s, truthyGet (some "1,2") = some s → ∃ ids, parseIntList s = some ids := by
    intro s hs
    have h2 : some "1,2" = some s := hs
    injection h2 with h3
    exact ⟨[1, 2], h3 ▸ rfl⟩
  have ha : ∀ s, truthyGet (none : Option String) = some s →
      ∃ ids, parseIntList s = some ids := by
    intro s hs
    exact Option.noConfusion hs
  exact ⟨hg, ha, rfl,
    movie_filter_conjunctive_intersection dbMovies (some "1,2") none none hg ha⟩

/-- Claim C5: a movie list request whose genres (or, with genres well-formed,
actors) parameter holds a non-integer token fails with a validation error
whose message contains the offending raw parameter string, and returns no
movie results. -/
theorem invalid_id_token_validation_error (db : Database) (g a t : Option String)
    (bad : String) (hne : bad.isEmpty = false) (hbad : parseIntList bad = none)
    (hwhere : g = some bad ∨
      ((∀ s, truthyGet g = some s → ∃ ids, parseIntList s = some ids)
        ∧ a = some bad)) :
    ∃ pre post, movieGetQueryset db g a t = .error (pre ++ bad ++ post) := by
  have hmain : movieGetQueryset db g a t
      = .error ("Failed to filter queryset: "
          ++ ("Invalid query string: " ++ bad ++ ". IDs must be integers.")) := by
    rcases hwhere with hG | ⟨hgood, hA⟩
    · subst hG
      exact movieGetQueryset_err1 db _ a t
        ((applyIdFilter_present Movie.genres db.movies
            (truthyGet_of_ne_empty hne)).trans
          (filter_by_params_err bad Movie.genres db.movies hbad))
    · subst hA
      obtain ⟨l1, h1⟩ := applyIdFilter_ok_exists Movie.genres db.movies hgood
      exact movieGetQueryset_err2 db g _ t h1
        ((applyIdFilter_present Movie.actors l1
            (truthyGet_of_ne_empty hne)).trans
          (filter_by_params_err bad Movie.actors l1 hbad))
  have hassoc : ("Failed to filter queryset: "
      ++ ("Invalid query string: " ++ bad ++ ". IDs must be integers."))
      = ("Failed to filter queryset: " ++ "Invalid query string: ") ++ bad
          ++ ". IDs must be integers." := by
    apply String.ext
    simp [String.data_append]
  exact ⟨"Failed to filter queryset: " ++ "Invalid query string: ",
    ". IDs must be integers.", by rw [hmain, hassoc]⟩

/-- Witness for C5 at the spec's malformed input `genres=1,abc`. -/
theorem invalid_id_token_validation_error_witness :
    ("1,abc" : String).isEmpty = false
    ∧ parseIntList "1,abc" = none
    ∧ ((some "1,abc" = some "1,abc") ∨
        ((∀ s, truthyGet (some "1,abc") = some s → ∃ ids, parseIntList s = some ids)
          ∧ (none : Option String) = some "1,abc"))
    ∧ (∃ pre post, movieGetQueryset ⟨[], [], [], []⟩ (some "1,abc") none none
        = .error (pre ++ "1,abc" ++ post)) :=
  ⟨rfl, rfl, Or.inl rfl,
    invalid_id_token_validation_error ⟨[], [], [], []⟩ (some "1,abc") none none
      "1,abc" rfl rfl (Or.inl rfl)⟩

end Cinema
